import Mathlib

/-!
# Verification of the dde-daemon wireless access-point core

Shallow embedding of `network/manager_accesspoint.go`: the security
classifier `doParseApSecType`, the access-point entity and its derived
`shouldBeIgnored` visibility flag, the per-device access-point registry
with its add/remove/clear/list operations and event emission, the
connection activator (`fixApSecTypeChange` / `activateAccessPoint`), and
the band-steering pass `checkAPStrength` with its candidate search
`findAPByBand`.

Go `uint8`/`uint32` values are modelled as `Nat`; where the Go code
performs `uint8` arithmetic that can wrap (the `strength + 20` comparison
in `checkAPStrength`) the embedding computes `(strength + 20) % 256`
explicitly. External collaborators (NetworkManager property fetches,
profile storage, activation calls) are modelled as explicit inputs and as
emitted action/event lists.
-/

/-! ## NetworkManager constants (published NM API values used by the source) -/

def NM_802_11_AP_FLAGS_PRIVACY : Nat := 0x1

def NM_802_11_AP_SEC_NONE : Nat := 0x0

def NM_802_11_AP_SEC_KEY_MGMT_802_1X : Nat := 0x200

def NM_ACTIVE_CONNECTION_STATE_ACTIVATED : Nat := 2

/-! ## Frequency range and threshold constants (manager_accesspoint.go) -/

def frequency5GUpperlimit : Nat := 5825

def frequency5GLowerlimit : Nat := 4915

def frequency2GUpperlimit : Nat := 2484

def frequency2GLowerlimit : Nat := 2412

def channelAutoChangeThreshold : Nat := 65

/-! ## Security classifier -/

inductive apSecType where
  | apSecNone
  | apSecWep
  | apSecPsk
  | apSecEap
deriving DecidableEq, Repr

open apSecType

/-- Embedding of `doParseApSecType` (manager_accesspoint.go lines 194-210):
sequential overwriting of the result `r` by each applicable rule. -/
def doParseApSecType (flags wpaFlags rsnFlags : Nat) : apSecType :=
  let r := apSecNone
  let r := if flags &&& NM_802_11_AP_FLAGS_PRIVACY ≠ 0 ∧ wpaFlags = NM_802_11_AP_SEC_NONE ∧
      rsnFlags = NM_802_11_AP_SEC_NONE then apSecWep else r
  let r := if wpaFlags ≠ NM_802_11_AP_SEC_NONE then apSecPsk else r
  let r := if rsnFlags ≠ NM_802_11_AP_SEC_NONE then apSecPsk else r
  let r := if wpaFlags &&& NM_802_11_AP_SEC_KEY_MGMT_802_1X ≠ 0 ∨
      rsnFlags &&& NM_802_11_AP_SEC_KEY_MGMT_802_1X ≠ 0 then apSecEap else r
  r

/-- The spec's precedence table for the classifier (§4.1), as an ordered
list of (applicability, category) rules. -/
def secRules (flags wpaFlags rsnFlags : Nat) : List (Bool × apSecType) :=
  [ (true, apSecNone),
    (decide (flags &&& NM_802_11_AP_FLAGS_PRIVACY ≠ 0 ∧ wpaFlags = NM_802_11_AP_SEC_NONE ∧
       rsnFlags = NM_802_11_AP_SEC_NONE), apSecWep),
    (decide (wpaFlags ≠ NM_802_11_AP_SEC_NONE), apSecPsk),
    (decide (rsnFlags ≠ NM_802_11_AP_SEC_NONE), apSecPsk),
    (decide (wpaFlags &&& NM_802_11_AP_SEC_KEY_MGMT_802_1X ≠ 0 ∨
       rsnFlags &&& NM_802_11_AP_SEC_KEY_MGMT_802_1X ≠ 0), apSecEap) ]

/-- "The last applicable rule wins": fold the rule table, each applicable
rule overwriting the accumulated result. -/
def lastApplicable (rules : List (Bool × apSecType)) : apSecType :=
  rules.foldl (fun acc rule => if rule.1 then rule.2 else acc) apSecNone

/-- C1: the classifier is the last applicable rule of the spec's precedence
table; privacy bit with both flag fields at no-security yields Wep; the
802.1X key-management bit in either field yields Eap regardless of all
other bits. -/
theorem doParseApSecType_matches_precedence_table (flags wpaFlags rsnFlags : Nat) :
    doParseApSecType flags wpaFlags rsnFlags = lastApplicable (secRules flags wpaFlags rsnFlags) ∧
    (flags &&& NM_802_11_AP_FLAGS_PRIVACY ≠ 0 → wpaFlags = NM_802_11_AP_SEC_NONE →
      rsnFlags = NM_802_11_AP_SEC_NONE → doParseApSecType flags wpaFlags rsnFlags = apSecWep) ∧
    (wpaFlags &&& NM_802_11_AP_SEC_KEY_MGMT_802_1X ≠ 0 ∨
      rsnFlags &&& NM_802_11_AP_SEC_KEY_MGMT_802_1X ≠ 0 →
      doParseApSecType flags wpaFlags rsnFlags = apSecEap) := by
  refine ⟨?_, ?_, ?_⟩
  · simp only [doParseApSecType, lastApplicable, secRules, List.foldl]
    by_cases h1 : flags &&& NM_802_11_AP_FLAGS_PRIVACY ≠ 0 ∧ wpaFlags = NM_802_11_AP_SEC_NONE ∧
        rsnFlags = NM_802_11_AP_SEC_NONE <;>
      by_cases h2 : wpaFlags ≠ NM_802_11_AP_SEC_NONE <;>
      by_cases h3 : rsnFlags ≠ NM_802_11_AP_SEC_NONE <;>
      by_cases h4 : wpaFlags &&& NM_802_11_AP_SEC_KEY_MGMT_802_1X ≠ 0 ∨
          rsnFlags &&& NM_802_11_AP_SEC_KEY_MGMT_802_1X ≠ 0 <;>
      simp [h1, h2, h3, h4]
  · intro hp hw hr
    have hw1x : ¬ (wpaFlags &&& NM_802_11_AP_SEC_KEY_MGMT_802_1X ≠ 0 ∨
        rsnFlags &&& NM_802_11_AP_SEC_KEY_MGMT_802_1X ≠ 0) := by
      simp [hw, hr, NM_802_11_AP_SEC_NONE, Nat.zero_and]
    simp [doParseApSecType, hp, hw, hr, hw1x, NM_802_11_AP_SEC_NONE]
  · intro h1x
    simp [doParseApSecType, h1x]

/-- Witness for C1 at a concrete input: privacy flag 1, both security
fields 0 classifies as Wep, and 802.1X bit in rsnFlags classifies as Eap. -/
theorem doParseApSecType_matches_precedence_table_witness :
    doParseApSecType 1 0 0 = apSecWep ∧ doParseApSecType 1 0x200 0x291 = apSecEap := by
  constructor
  · exact (doParseApSecType_matches_precedence_table 1 0 0).2.1 (by decide) rfl rfl
  · exact (doParseApSecType_matches_precedence_table 1 0x200 0x291).2.2 (by decide)

/-! ## AccessPoint entity -/

/-- Embedding of the `accessPoint` struct. The external `nmAp` handle is
replaced by the raw property values it serves (`RawAp` below); `devPath`
and `Path` are kept as strings (D-Bus object paths). -/
structure accessPoint where
  devPath : String
  shouldBeIgnored : Bool
  Ssid : String
  Secured : Bool
  SecuredInEap : Bool
  Strength : Nat
  Path : String
  Frequency : Nat
deriving DecidableEq, Repr

/-- The raw property values an `nmAp` handle serves to `updateProps`:
decoded SSID, capability bitfields, strength (uint8) and frequency (MHz). -/
structure RawAp where
  ssid : String
  flags : Nat
  wpaFlags : Nat
  rsnFlags : Nat
  strength : Nat
  frequency : Nat
deriving DecidableEq, Repr

/-- Embedding of `(*accessPoint).updateProps` (lines 168-185). The
manager's `isAccessPointActivated(devPath, ssid)` scan over active
connections is abstracted as the boolean environment `isActivated`. -/
def updateProps (isActivated : String → String → Bool) (raw : RawAp)
    (a : accessPoint) : accessPoint :=
  let secType := doParseApSecType raw.flags raw.wpaFlags raw.rsnFlags
  let a := { a with
    Ssid := raw.ssid
    Secured := decide (secType ≠ apSecNone)
    SecuredInEap := decide (secType = apSecEap)
    Strength := raw.strength
    Frequency := raw.frequency }
  if a.Strength < 10 ∧ a.Strength ≠ 0 ∧ ¬ isActivated a.devPath a.Ssid then
    { a with shouldBeIgnored := true }
  else
    { a with shouldBeIgnored := false }

/-! ## AccessPoint registry and events -/

/-- The manager's `accessPoints` map `devPath -> []*accessPoint`,
modelled as an association list (Go map iteration order is arbitrary;
every claim proved below is order-insensitive). -/
abbrev Registry := List (String × List accessPoint)

/-- D-Bus signals emitted by the manager for access points. -/
inductive ApEvent where
  | added (devPath : String) (ap : accessPoint)
  | removed (devPath : String) (ap : accessPoint)
  | propertiesChanged (devPath : String) (ap : accessPoint)
deriving DecidableEq, Repr

/-- Embedding of `destroyAccessPoint` (lines 158-166): unconditionally
emits `AccessPointRemoved` for the entity, then releases the handle. -/
def destroyAccessPoint (ap : accessPoint) : ApEvent :=
  ApEvent.removed ap.devPath ap

/-- Embedding of `GetAccessPoints` (lines 300-313): loop over the
device's list appending every entity that is not ignored. -/
def GetAccessPoints (reg : Registry) (path : String) : List accessPoint :=
  let accessPoints := (reg.lookup path).getD []
  accessPoints.foldl (fun acc ap => if ap.shouldBeIgnored then acc else acc ++ [ap]) []

/-- Embedding of `clearAccessPoints` (lines 224-233): destroy every
registered entity (each destroy emits one `AccessPointRemoved`), then
replace the map with an empty one. -/
def clearAccessPoints (reg : Registry) : Registry × List ApEvent :=
  let events := reg.foldl (fun acc entry => acc ++ entry.2.map destroyAccessPoint) []
  ([], events)

/-- All access points registered anywhere, in registry order. -/
def allAccessPoints (reg : Registry) : List accessPoint :=
  (reg.map Prod.snd).flatten

/-- Number of registered access points that are visible (not ignored). -/
def visibleCount (reg : Registry) : Nat :=
  ((allAccessPoints reg).filter (fun ap => !ap.shouldBeIgnored)).length

/-- Number of registered access points that are ignored. -/
def ignoredCount (reg : Registry) : Nat :=
  ((allAccessPoints reg).filter (fun ap => ap.shouldBeIgnored)).length

lemma foldl_destroy_append (reg : Registry) (init : List ApEvent) :
    reg.foldl (fun acc entry => acc ++ entry.2.map destroyAccessPoint) init =
      init ++ (allAccessPoints reg).map destroyAccessPoint := by
  induction reg generalizing init with
  | nil => simp [allAccessPoints]
  | cons e t ih =>
    rw [List.foldl_cons, ih]
    simp [allAccessPoints, List.map_append, List.append_assoc]

lemma updateProps_Strength (isActivated : String → String → Bool) (raw : RawAp)
    (a : accessPoint) : (updateProps isActivated raw a).Strength = raw.strength := by
  simp only [updateProps]
  split <;> rfl

lemma updateProps_Ssid (isActivated : String → String → Bool) (raw : RawAp)
    (a : accessPoint) : (updateProps isActivated raw a).Ssid = raw.ssid := by
  simp only [updateProps]
  split <;> rfl

lemma updateProps_devPath (isActivated : String → String → Bool) (raw : RawAp)
    (a : accessPoint) : (updateProps isActivated raw a).devPath = a.devPath := by
  simp only [updateProps]
  split <;> rfl

lemma updateProps_shouldBeIgnored (isActivated : String → String → Bool) (raw : RawAp)
    (a : accessPoint) :
    (updateProps isActivated raw a).shouldBeIgnored =
      decide (raw.strength < 10 ∧ raw.strength ≠ 0 ∧ ¬ isActivated a.devPath raw.ssid) := by
  simp only [updateProps]
  split
  next h => simp_all
  next h => simp_all

lemma foldl_visible_filter (l : List accessPoint) (acc : List accessPoint) :
    l.foldl (fun acc ap => if ap.shouldBeIgnored then acc else acc ++ [ap]) acc =
      acc ++ l.filter (fun ap => !ap.shouldBeIgnored) := by
  induction l generalizing acc with
  | nil => simp
  | cons a t ih =>
    by_cases h : a.shouldBeIgnored <;> simp [List.foldl_cons, h, ih, List.filter_cons]

/-- C2: after `updateProps`, `shouldBeIgnored` holds exactly when the
refreshed strength is strictly between 0 and 10 and the refreshed SSID is
not activated on the entity's device; strength 0 is never ignored; and
`GetAccessPoints` lists exactly the device's non-ignored entities in
insertion order (it is the `filter` of the stored list). -/
theorem updateProps_ignore_rule (isActivated : String → String → Bool) (raw : RawAp)
    (a : accessPoint) (reg : Registry) (path : String) :
    ((updateProps isActivated raw a).shouldBeIgnored = true ↔
      0 < (updateProps isActivated raw a).Strength ∧
      (updateProps isActivated raw a).Strength < 10 ∧
      isActivated (updateProps isActivated raw a).devPath
        (updateProps isActivated raw a).Ssid = false) ∧
    ((updateProps isActivated raw a).Strength = 0 →
      (updateProps isActivated raw a).shouldBeIgnored = false) ∧
    GetAccessPoints reg path =
      ((reg.lookup path).getD []).filter (fun ap => !ap.shouldBeIgnored) ∧
    (∀ ap, ap ∈ GetAccessPoints reg path ↔
      ap ∈ (reg.lookup path).getD [] ∧ ap.shouldBeIgnored = false) := by
  have hfilter : GetAccessPoints reg path =
      ((reg.lookup path).getD []).filter (fun ap => !ap.shouldBeIgnored) := by
    simp [GetAccessPoints, foldl_visible_filter]
  refine ⟨?_, ?_, hfilter, ?_⟩
  · rw [updateProps_shouldBeIgnored, updateProps_Strength, updateProps_devPath,
      updateProps_Ssid]
    simp only [decide_eq_true_eq, Bool.not_eq_true]
    constructor
    · rintro ⟨h1, h2, h3⟩
      exact ⟨by omega, h1, h3⟩
    · rintro ⟨h1, h2, h3⟩
      exact ⟨h2, by omega, h3⟩
  · intro h0
    rw [updateProps_Strength] at h0
    rw [updateProps_shouldBeIgnored]
    simp [h0]
  · intro ap
    rw [hfilter]
    simp [List.mem_filter]

/-- Witness for C2: a non-active AP refreshed to strength 5 is ignored and
absent from the listing; the same AP refreshed to strength 0 is not
ignored and present. -/
theorem updateProps_ignore_rule_witness :
    (updateProps (fun _ _ => false)
      ⟨"net", 0, 0, 0, 5, 2412⟩ ⟨"dev", false, "", false, false, 0, "ap1", 0⟩).shouldBeIgnored
        = true ∧
    (updateProps (fun _ _ => false)
      ⟨"net", 0, 0, 0, 0, 2412⟩ ⟨"dev", false, "", false, false, 0, "ap1", 0⟩).shouldBeIgnored
        = false ∧
    GetAccessPoints [("dev", [updateProps (fun _ _ => false)
      ⟨"net", 0, 0, 0, 5, 2412⟩ ⟨"dev", false, "", false, false, 0, "ap1", 0⟩])] "dev" = [] ∧
    GetAccessPoints [("dev", [updateProps (fun _ _ => false)
      ⟨"net", 0, 0, 0, 0, 2412⟩ ⟨"dev", false, "", false, false, 0, "ap1", 0⟩])] "dev" ≠ [] := by
  refine ⟨?_, ?_, by decide, by decide⟩
  · exact (updateProps_ignore_rule (fun _ _ => false) ⟨"net", 0, 0, 0, 5, 2412⟩
      ⟨"dev", false, "", false, false, 0, "ap1", 0⟩ [] "").1.mpr (by decide)
  · exact (updateProps_ignore_rule (fun _ _ => false) ⟨"net", 0, 0, 0, 0, 2412⟩
      ⟨"dev", false, "", false, false, 0, "ap1", 0⟩ [] "").2.1 (by decide)

/-- An ignored access point (strength 5, not active), registered under
device "dev": `clearAccessPoints` still emits a removal event for it. -/
def ignoredApCex : accessPoint :=
  ⟨"dev", true, "net", false, false, 5, "ap1", 2412⟩

/-- Counterexample for C3: a registry with 0 visible and 1 ignored AP.
The claim says `Clear` emits exactly N = 0 `AccessPointRemoved` events
(the ignored AP released silently); `clearAccessPoints` destroys every
entity via `destroyAccessPoint`, which emits unconditionally, so 1 event
is emitted. -/
theorem clearAccessPoints_not_silent_for_ignored :
    visibleCount [("dev", [ignoredApCex])] = 0 ∧
    ignoredCount [("dev", [ignoredApCex])] = 1 ∧
    (clearAccessPoints [("dev", [ignoredApCex])]).2.length ≠
      visibleCount [("dev", [ignoredApCex])] ∧
    (clearAccessPoints [("dev", [ignoredApCex])]).2 =
      [ApEvent.removed "dev" ignoredApCex] := by
  refine ⟨rfl, rfl, by decide, rfl⟩

/-- C3 (amended): `Clear` on a registry holding N visible and M ignored
access points emits exactly N + M `AccessPointRemoved` events — one per
registered AP, ignored or not — and afterwards the registry is empty. -/
theorem clearAccessPoints_emits_removed_per_ap (reg : Registry) :
    (clearAccessPoints reg).2 = (allAccessPoints reg).map destroyAccessPoint ∧
    (clearAccessPoints reg).2.length = visibleCount reg + ignoredCount reg ∧
    (clearAccessPoints reg).1 = [] := by
  have hev : (clearAccessPoints reg).2 = (allAccessPoints reg).map destroyAccessPoint := by
    simp [clearAccessPoints, foldl_destroy_append]
  refine ⟨hev, ?_, rfl⟩
  rw [hev, List.length_map, visibleCount, ignoredCount, Nat.add_comm]
  exact List.length_eq_length_filter_add (fun ap : accessPoint => ap.shouldBeIgnored)

/-! ## Property-changed notifications -/

/-- Embedding of the `ConnectPropertiesChanged` closure installed by
`newAccessPoint` (lines 100-140): guard on registry membership, refresh
the entity, then emit according to the before/after ignored states. -/
def handleApPropertiesChanged (existsInRegistry : Bool)
    (isActivated : String → String → Bool) (raw : RawAp)
    (ap : accessPoint) : accessPoint × List ApEvent :=
  if ¬ existsInRegistry then (ap, [])
  else
    let ignoredBefore := ap.shouldBeIgnored
    let ap2 := updateProps isActivated raw ap
    let ignoredNow := ap2.shouldBeIgnored
    if ignoredNow = ignoredBefore then
      if ignoredNow then (ap2, [])
      else (ap2, [ApEvent.propertiesChanged ap.devPath ap2])
    else
      if ignoredNow then (ap2, [ApEvent.removed ap.devPath ap2])
      else (ap2, [ApEvent.added ap.devPath ap2])

/-- C8: for a property-changed notification on a registered AP, emission
follows the four-case rule: still ignored ⇒ no event; still visible ⇒
exactly one `AccessPointPropertiesChanged`; ignored→visible ⇒ exactly one
`AccessPointAdded`; visible→ignored ⇒ exactly one `AccessPointRemoved`. -/
theorem handleApPropertiesChanged_four_cases (isActivated : String → String → Bool)
    (raw : RawAp) (ap : accessPoint) :
    (ap.shouldBeIgnored = true → (updateProps isActivated raw ap).shouldBeIgnored = true →
      (handleApPropertiesChanged true isActivated raw ap).2 = []) ∧
    (ap.shouldBeIgnored = false → (updateProps isActivated raw ap).shouldBeIgnored = false →
      (handleApPropertiesChanged true isActivated raw ap).2 =
        [ApEvent.propertiesChanged ap.devPath (updateProps isActivated raw ap)]) ∧
    (ap.shouldBeIgnored = true → (updateProps isActivated raw ap).shouldBeIgnored = false →
      (handleApPropertiesChanged true isActivated raw ap).2 =
        [ApEvent.added ap.devPath (updateProps isActivated raw ap)]) ∧
    (ap.shouldBeIgnored = false → (updateProps isActivated raw ap).shouldBeIgnored = true →
      (handleApPropertiesChanged true isActivated raw ap).2 =
        [ApEvent.removed ap.devPath (updateProps isActivated raw ap)]) := by
  refine ⟨?_, ?_, ?_, ?_⟩ <;> intro hb hn <;> simp [handleApPropertiesChanged, hb, hn]

/-- Witness for C8 at a concrete input: an AP currently ignored whose
strength refreshes to 80 flips to visible and emits exactly one
`AccessPointAdded`. -/
theorem handleApPropertiesChanged_four_cases_witness :
    (handleApPropertiesChanged true (fun _ _ => false) ⟨"net", 0, 0, 0, 80, 2412⟩
      ⟨"dev", true, "net", false, false, 5, "ap1", 2412⟩).2 =
      [ApEvent.added "dev" (updateProps (fun _ _ => false) ⟨"net", 0, 0, 0, 80, 2412⟩
        ⟨"dev", true, "net", false, false, 5, "ap1", 2412⟩)] := by
  exact (handleApPropertiesChanged_four_cases (fun _ _ => false) ⟨"net", 0, 0, 0, 80, 2412⟩
    ⟨"dev", true, "net", false, false, 5, "ap1", 2412⟩).2.2.1 rfl (by decide)

/-! ## Adding access points -/

/-- Embedding of `newAccessPoint` (lines 81-156). Result: the entity
pointer, whether the named return `err` is non-nil, and the events
emitted. `fetchOk` models `nmNewAccessPoint(apPath)` succeeding (on its
failure the entity pointer is still nil). A hidden AP (empty decoded
SSID) sets `err` and returns the already-constructed entity before any
signal work. `connectOk` models `ConnectPropertiesChanged` succeeding:
on its failure the source only logs (line 142), leaving the named `err`
non-nil, and still falls through to emit `AccessPointAdded` for a
non-ignored AP (line 149) before returning both the entity and the
error. -/
def newAccessPoint (fetchOk connectOk : Bool) (isActivated : String → String → Bool)
    (devPath apPath : String) (raw : RawAp) :
    Option accessPoint × Bool × List ApEvent :=
  if ¬ fetchOk then (none, true, [])
  else
    let ap : accessPoint := ⟨devPath, false, "", false, false, 0, apPath, 0⟩
    let ap := updateProps isActivated raw ap
    if ap.Ssid.length = 0 then (some ap, true, [])
    else if ap.shouldBeIgnored then (some ap, !connectOk, [])
    else (some ap, !connectOk, [ApEvent.added devPath ap])

/-- Embedding of `getAccessPointIndex` (lines 288-297): scan every
device's list for the entity with the given path, returning its device
and index, or `("", -1)`. -/
def getAccessPointIndex (reg : Registry) (apPath : String) : String × Int :=
  match reg.find? (fun entry => entry.2.any (fun ap => ap.Path == apPath)) with
  | some entry => (entry.1, (entry.2.findIdx (fun ap => ap.Path == apPath) : Int))
  | none => ("", -1)

/-- Embedding of `isAccessPointExists` (lines 283-286). -/
def isAccessPointExists (reg : Registry) (apPath : String) : Bool :=
  decide ((getAccessPointIndex reg apPath).2 ≥ 0)

/-- Go's `m.accessPoints[devPath] = append(m.accessPoints[devPath], ap)`
on the association-list registry: append to the device's slot, creating
it if absent. -/
def registryAppend (reg : Registry) (devPath : String) (ap : accessPoint) : Registry :=
  match reg with
  | [] => [(devPath, [ap])]
  | (d, aps) :: t =>
    if d = devPath then (d, aps ++ [ap]) :: t
    else (d, aps) :: registryAppend t devPath ap

/-- Embedding of `addAccessPoint` (lines 251-263): no-op when the path is
already registered anywhere; otherwise construct via `newAccessPoint` and
append to the device's list — unless construction returned a non-nil
error, in which case the entity is dropped (any event `newAccessPoint`
emitted has already fired). -/
def addAccessPoint (reg : Registry) (fetchOk connectOk : Bool)
    (isActivated : String → String → Bool) (devPath apPath : String)
    (raw : RawAp) : Registry × List ApEvent :=
  if isAccessPointExists reg apPath then (reg, [])
  else
    match newAccessPoint fetchOk connectOk isActivated devPath apPath raw with
    | (apOpt, err, evs) =>
      if err then (reg, evs)
      else
        match apOpt with
        | some ap => (registryAppend reg devPath ap, evs)
        | none => (reg, evs)

lemma updateProps_Path (isActivated : String → String → Bool) (raw : RawAp)
    (a : accessPoint) : (updateProps isActivated raw a).Path = a.Path := by
  simp only [updateProps]
  split <;> rfl

lemma isAccessPointExists_iff (reg : Registry) (p : String) :
    isAccessPointExists reg p = true ↔ ∃ ap, ap ∈ allAccessPoints reg ∧ ap.Path = p := by
  unfold isAccessPointExists getAccessPointIndex
  cases hf : reg.find? (fun entry => entry.2.any (fun ap => ap.Path == p)) with
  | none =>
    simp only [hf, decide_eq_true_eq]
    constructor
    · intro h
      exact absurd h (by decide)
    · rintro ⟨ap, hmem, hpath⟩
      exfalso
      rw [allAccessPoints] at hmem
      obtain ⟨aps, haps, hap⟩ := List.mem_flatten.mp hmem
      obtain ⟨entry, hentry, rfl⟩ := List.mem_map.mp haps
      have hnone := List.find?_eq_none.mp hf entry hentry
      simp only [List.any_eq_true, beq_iff_eq, not_exists] at hnone
      exact hnone ap ⟨hap, hpath⟩
  | some entry =>
    simp only [hf, decide_eq_true_eq]
    constructor
    · intro _
      have hpred := List.find?_some hf
      have hmem := List.mem_of_find?_eq_some hf
      simp only [List.any_eq_true, beq_iff_eq] at hpred
      obtain ⟨ap, hap, hpath⟩ := hpred
      exact ⟨ap, List.mem_flatten.mpr ⟨entry.2,
        List.mem_map.mpr ⟨entry, hmem, rfl⟩, hap⟩, hpath⟩
    · intro _
      exact Int.natCast_nonneg _

lemma allAccessPoints_cons (d0 : String) (aps : List accessPoint) (t : Registry) :
    allAccessPoints ((d0, aps) :: t) = aps ++ allAccessPoints t := by
  simp [allAccessPoints]

lemma registryAppend_cons_ne (d0 : String) (aps : List accessPoint) (t : Registry)
    (d : String) (ap : accessPoint) (h : ¬ d0 = d) :
    registryAppend ((d0, aps) :: t) d ap = (d0, aps) :: registryAppend t d ap := by
  simp [registryAppend, h]

lemma mem_allAccessPoints_registryAppend (reg : Registry) (d : String) (ap : accessPoint) :
    ap ∈ allAccessPoints (registryAppend reg d ap) := by
  induction reg with
  | nil => simp [registryAppend, allAccessPoints]
  | cons e t ih =>
    obtain ⟨d0, aps⟩ := e
    by_cases h : d0 = d
    · simp only [registryAppend, if_pos h, allAccessPoints_cons]
      simp
    · rw [registryAppend_cons_ne d0 aps t d ap h, allAccessPoints_cons]
      exact List.mem_append_right _ ih

lemma lookup_registryAppend_self (reg : Registry) (d : String) (ap : accessPoint) :
    (((registryAppend reg d ap).lookup d).getD []) = ((reg.lookup d).getD []) ++ [ap] := by
  induction reg with
  | nil => simp [registryAppend]
  | cons e t ih =>
    obtain ⟨d0, aps⟩ := e
    by_cases h : d0 = d
    · subst h
      simp [registryAppend, List.lookup]
    · have hbeq : (d == d0) = false := beq_eq_false_iff_ne.mpr (fun hc => h hc.symm)
      rw [registryAppend_cons_ne d0 aps t d ap h]
      simp [List.lookup, hbeq, ih]

lemma lookup_registryAppend_other (reg : Registry) (d d' : String) (ap : accessPoint)
    (h : d' ≠ d) :
    ((registryAppend reg d ap).lookup d') = reg.lookup d' := by
  induction reg with
  | nil =>
    have hbeq : (d' == d) = false := beq_eq_false_iff_ne.mpr h
    simp [registryAppend, List.lookup, hbeq]
  | cons e t ih =>
    obtain ⟨d0, aps⟩ := e
    by_cases h0 : d0 = d
    · subst h0
      have hbeq : (d' == d0) = false := beq_eq_false_iff_ne.mpr h
      simp [registryAppend, List.lookup, hbeq]
    · rw [registryAppend_cons_ne d0 aps t d ap h0]
      by_cases h1 : d' = d0
      · subst h1
        simp [List.lookup]
      · have hbeq : (d' == d0) = false := beq_eq_false_iff_ne.mpr h1
        simp [List.lookup, hbeq, ih]

lemma newAccessPoint_events_le_one (fetchOk connectOk : Bool)
    (isActivated : String → String → Bool) (devPath apPath : String) (raw : RawAp) :
    (newAccessPoint fetchOk connectOk isActivated devPath apPath raw).2.2.length ≤ 1 := by
  unfold newAccessPoint
  dsimp only
  split
  · simp
  · split
    · simp
    · split <;> simp

lemma newAccessPoint_err_no_events (fetchOk : Bool)
    (isActivated : String → String → Bool) (devPath apPath : String) (raw : RawAp) :
    (newAccessPoint fetchOk true isActivated devPath apPath raw).2.1 = true →
    (newAccessPoint fetchOk true isActivated devPath apPath raw).2.2 = [] := by
  unfold newAccessPoint
  dsimp only
  split
  · intro _
    rfl
  · split
    · intro _
      rfl
    · split
      · intro h
        simp at h
      · intro h
        simp at h

lemma newAccessPoint_no_err_some (fetchOk connectOk : Bool)
    (isActivated : String → String → Bool) (devPath apPath : String) (raw : RawAp) :
    (newAccessPoint fetchOk connectOk isActivated devPath apPath raw).2.1 = false →
    ∃ ap, (newAccessPoint fetchOk connectOk isActivated devPath apPath raw).1 = some ap ∧
      ap.Path = apPath := by
  unfold newAccessPoint
  dsimp only
  split
  · intro h
    simp at h
  · split
    · intro h
      simp at h
    · split
      · intro _
        exact ⟨_, rfl, updateProps_Path isActivated raw _⟩
      · intro _
        exact ⟨_, rfl, updateProps_Path isActivated raw _⟩

lemma addAccessPoint_exists_noop (reg : Registry) (fetchOk connectOk : Bool)
    (iA : String → String → Bool) (devPath apPath : String) (raw : RawAp)
    (h : isAccessPointExists reg apPath = true) :
    addAccessPoint reg fetchOk connectOk iA devPath apPath raw = (reg, []) := by
  unfold addAccessPoint
  rw [if_pos h]

lemma isAccessPointExists_registryAppend (reg : Registry) (d : String) (ap : accessPoint) :
    isAccessPointExists (registryAppend reg d ap) ap.Path = true :=
  (isAccessPointExists_iff _ _).mpr ⟨ap, mem_allAccessPoints_registryAppend reg d ap, rfl⟩

lemma addAccessPoint_single_bounds (reg : Registry) (fetchOk connectOk : Bool)
    (iA : String → String → Bool) (devPath apPath : String) (raw : RawAp) :
    (∀ d, ((((addAccessPoint reg fetchOk connectOk iA devPath apPath raw).1).lookup
        d).getD []).length ≤ ((reg.lookup d).getD []).length + 1) ∧
    (addAccessPoint reg fetchOk connectOk iA devPath apPath raw).2.length ≤ 1 := by
  by_cases hex : isAccessPointExists reg apPath = true
  · rw [addAccessPoint_exists_noop reg fetchOk connectOk iA devPath apPath raw hex]
    exact ⟨fun d => Nat.le_succ _, by simp⟩
  · cases ho : newAccessPoint fetchOk connectOk iA devPath apPath raw with
    | mk o rest =>
      obtain ⟨err, evs⟩ := rest
      have hevs : evs.length ≤ 1 := by
        have := newAccessPoint_events_le_one fetchOk connectOk iA devPath apPath raw
        rw [ho] at this
        exact this
      by_cases herr : err = true
      · have h1 : addAccessPoint reg fetchOk connectOk iA devPath apPath raw = (reg, evs) := by
          unfold addAccessPoint
          rw [if_neg hex, ho]
          dsimp only
          rw [if_pos herr]
        rw [h1]
        exact ⟨fun d => Nat.le_succ _, hevs⟩
      · have herr' : ¬ (err = true) := herr
        cases o with
        | none =>
          have h1 : addAccessPoint reg fetchOk connectOk iA devPath apPath raw =
              (reg, evs) := by
            unfold addAccessPoint
            rw [if_neg hex, ho]
            dsimp only
            rw [if_neg herr']
          rw [h1]
          exact ⟨fun d => Nat.le_succ _, hevs⟩
        | some ap =>
          have h1 : addAccessPoint reg fetchOk connectOk iA devPath apPath raw =
              (registryAppend reg devPath ap, evs) := by
            unfold addAccessPoint
            rw [if_neg hex, ho]
            dsimp only
            rw [if_neg herr']
          rw [h1]
          refine ⟨fun d => ?_, hevs⟩
          by_cases hd : d = devPath
          · subst hd
            rw [lookup_registryAppend_self]
            simp
          · rw [lookup_registryAppend_other reg devPath d ap hd]
            exact Nat.le_succ _

/-- Counterexample for C9: when `ConnectPropertiesChanged` fails, the
source emits `AccessPointAdded` (line 149) for a non-ignored AP and yet
returns the non-nil named `err` (assigned at line 100, only logged at
line 142), so `addAccessPoint` drops the entity without registering it.
A first add with a failing signal connect therefore emits one
`AccessPointAdded` and leaves the registry empty, and a second add of
the same `apPath` constructs again and emits a second
`AccessPointAdded`: two events in total, refuting "fires at most one
AccessPointAdded event in total". -/
theorem addAccessPoint_connect_failure_two_added :
    addAccessPoint [] true false (fun _ _ => false) "dev" "ap1"
        ⟨"net", 0, 0, 0, 50, 2412⟩ =
      ([], [ApEvent.added "dev" ⟨"dev", false, "net", false, false, 50, "ap1", 2412⟩]) ∧
    addAccessPoint [] true true (fun _ _ => false) "dev" "ap1"
        ⟨"net", 0, 0, 0, 50, 2412⟩ =
      ([("dev", [⟨"dev", false, "net", false, false, 50, "ap1", 2412⟩])],
        [ApEvent.added "dev" ⟨"dev", false, "net", false, false, 50, "ap1", 2412⟩]) :=
  ⟨by decide, by decide⟩

/-- C9 (amended): adding is idempotent in `apPath` when the path is
already registered: the add is a no-op (registry unchanged, no event).
Adding the same `apPath` twice grows every device's list by at most one
entry, and each single add emits at most one event. The "at most one
AccessPointAdded in total" bound, however, holds only when the first
add's `ConnectPropertiesChanged` succeeds: a failed signal connect emits
`AccessPointAdded` yet returns a non-nil error, the entity is dropped,
and the second add emits again. -/
theorem addAccessPoint_idempotent (reg : Registry)
    (fetchOk1 fetchOk2 connectOk1 connectOk2 : Bool)
    (iA1 iA2 : String → String → Bool) (devPath1 devPath2 apPath : String)
    (raw1 raw2 : RawAp) :
    (isAccessPointExists reg apPath = true →
      addAccessPoint reg fetchOk1 connectOk1 iA1 devPath1 apPath raw1 = (reg, [])) ∧
    (∀ d, ((((addAccessPoint
        (addAccessPoint reg fetchOk1 connectOk1 iA1 devPath1 apPath raw1).1
        fetchOk2 connectOk2 iA2 devPath2 apPath raw2).1).lookup d).getD []).length ≤
      ((reg.lookup d).getD []).length + 1) ∧
    (addAccessPoint reg fetchOk1 connectOk1 iA1 devPath1 apPath raw1).2.length ≤ 1 ∧
    (addAccessPoint (addAccessPoint reg fetchOk1 connectOk1 iA1 devPath1 apPath raw1).1
        fetchOk2 connectOk2 iA2 devPath2 apPath raw2).2.length ≤ 1 ∧
    (connectOk1 = true →
      (addAccessPoint reg fetchOk1 connectOk1 iA1 devPath1 apPath raw1).2.length +
        (addAccessPoint (addAccessPoint reg fetchOk1 connectOk1 iA1 devPath1 apPath raw1).1
          fetchOk2 connectOk2 iA2 devPath2 apPath raw2).2.length ≤ 1) := by
  refine ⟨addAccessPoint_exists_noop reg fetchOk1 connectOk1 iA1 devPath1 apPath raw1, ?_⟩
  by_cases hex : isAccessPointExists reg apPath = true
  · rw [addAccessPoint_exists_noop reg fetchOk1 connectOk1 iA1 devPath1 apPath raw1 hex,
      addAccessPoint_exists_noop reg fetchOk2 connectOk2 iA2 devPath2 apPath raw2 hex]
    exact ⟨fun d => Nat.le_succ _, by simp, by simp, fun _ => by simp⟩
  · cases ho : newAccessPoint fetchOk1 connectOk1 iA1 devPath1 apPath raw1 with
    | mk o rest =>
      obtain ⟨err, evs⟩ := rest
      have hevs1 : evs.length ≤ 1 := by
        have := newAccessPoint_events_le_one fetchOk1 connectOk1 iA1 devPath1 apPath raw1
        rw [ho] at this
        exact this
      by_cases herr : err = true
      · have h1 : addAccessPoint reg fetchOk1 connectOk1 iA1 devPath1 apPath raw1 =
            (reg, evs) := by
          unfold addAccessPoint
          rw [if_neg hex, ho]
          dsimp only
          rw [if_pos herr]
        rw [h1]
        have hb := addAccessPoint_single_bounds reg fetchOk2 connectOk2 iA2 devPath2
          apPath raw2
        refine ⟨hb.1, hevs1, hb.2, ?_⟩
        intro hco
        have hee : evs = [] := by
          rw [hco] at ho
          have h' := newAccessPoint_err_no_events fetchOk1 iA1 devPath1 apPath raw1
          rw [ho] at h'
          exact h' herr
        rw [hee]
        simpa using hb.2
      · have herr' : err = false := by
          cases err
          · rfl
          · exact absurd rfl herr
        obtain ⟨ap, hap, hpath⟩ :=
          newAccessPoint_no_err_some fetchOk1 connectOk1 iA1 devPath1 apPath raw1
            (by rw [ho]; exact herr')
        rw [ho] at hap
        have hap2 : o = some ap := hap
        have h1 : addAccessPoint reg fetchOk1 connectOk1 iA1 devPath1 apPath raw1 =
            (registryAppend reg devPath1 ap, evs) := by
          unfold addAccessPoint
          rw [if_neg hex, ho]
          dsimp only
          rw [if_neg herr, hap2]
        have hex2 : isAccessPointExists (registryAppend reg devPath1 ap) apPath = true := by
          rw [← hpath]
          exact isAccessPointExists_registryAppend reg devPath1 ap
        rw [h1, addAccessPoint_exists_noop (registryAppend reg devPath1 ap)
          fetchOk2 connectOk2 iA2 devPath2 apPath raw2 hex2]
        refine ⟨fun d => ?_, hevs1, by simp, fun _ => by simpa using hevs1⟩
        by_cases hd : d = devPath1
        · subst hd
          rw [lookup_registryAppend_self]
          simp
        · rw [lookup_registryAppend_other reg devPath1 d ap hd]
          exact Nat.le_succ _

/-- Witness for C9 (amended): a registry already holding path "ap1"; a
second add of "ap1" (even under another device) is a no-op with no
events. -/
theorem addAccessPoint_idempotent_witness :
    addAccessPoint [("dev", [⟨"dev", false, "net", false, false, 50, "ap1", 2412⟩])]
      true true (fun _ _ => false) "dev2" "ap1" ⟨"net", 0, 0, 0, 50, 2412⟩ =
      ([("dev", [⟨"dev", false, "net", false, false, 50, "ap1", 2412⟩])], []) :=
  (addAccessPoint_idempotent
    [("dev", [⟨"dev", false, "net", false, false, 50, "ap1", 2412⟩])] true true true true
    (fun _ _ => false) (fun _ _ => false) "dev2" "dev2" "ap1"
    ⟨"net", 0, 0, 0, 50, 2412⟩ ⟨"net", 0, 0, 0, 50, 2412⟩).1 (by decide)

/-! ## Connection activator -/

/-- External profile-storage environment seen by `fixApSecTypeChange`:
whether the uuid resolves to readable settings (`nmGetConnectionByUuid`,
`nmNewSettingsConnection`, `GetSettings`), whether the stored
key-management field parses back to a security category
(`getApSecTypeFromConnData`), that stored category, and whether the
key-management rewrite and the `Update` call succeed. -/
structure ProfileEnv where
  lookupOk : Bool
  secTypeOldOk : Bool
  secTypeOld : apSecType
  setKeyMgmtOk : Bool
  updateOk : Bool
deriving DecidableEq, Repr

/-- Outbound calls the activator issues to the network-management
service. -/
inductive ConnAction where
  | updateProfile (uuid : String)
  | activateConn (uuid : String) (devPath : String)
  | addAndActivate (ssid : String) (devPath : String)
deriving DecidableEq, Repr

/-- Error outcomes of the activator: an external-service failure, or the
"need user edit" refusal. -/
inductive ActErr where
  | externalFail
  | needUserEdit
deriving DecidableEq, Repr

/-- Embedding of `fixApSecTypeChange` (lines 326-381). Result:
(needUserEdit, error occurred, actions issued to the settings service).
An unreadable stored category returns `(false, nil)` in the source —
activation then proceeds without a fix. The Eap case returns before any
`Update` call. -/
def fixApSecTypeChange (env : ProfileEnv) (uuid : String) (secType : apSecType) :
    Bool × Bool × List ConnAction :=
  if ¬ env.lookupOk then (false, true, [])
  else if ¬ env.secTypeOldOk then (false, false, [])
  else if env.secTypeOld = secType then (false, false, [])
  else
    match secType with
    | apSecEap => (true, false, [])
    | _ =>
      if ¬ env.setKeyMgmtOk then (false, true, [])
      else if env.updateOk then (false, false, [ConnAction.updateProfile uuid])
      else (false, true, [ConnAction.updateProfile uuid])

/-- Embedding of `activateAccessPoint` (lines 384-422): compute the AP's
live security category; with a non-empty uuid run the sec-type fix first
(refusing on `needUserEdit`), then activate the existing profile;
with an empty uuid build and atomically create-and-activate a fresh
wireless profile. -/
def activateAccessPoint (env : ProfileEnv) (apFetchOk ssidFetchOk activateOk : Bool)
    (uuid : String) (raw : RawAp) (devPath : String) :
    Option ActErr × List ConnAction :=
  if ¬ apFetchOk then (some ActErr.externalFail, [])
  else
    let secType := doParseApSecType raw.flags raw.wpaFlags raw.rsnFlags
    if uuid ≠ "" then
      let fix := fixApSecTypeChange env uuid secType
      if fix.2.1 then (some ActErr.externalFail, fix.2.2)
      else if fix.1 then (some ActErr.needUserEdit, fix.2.2)
      else if activateOk then (none, fix.2.2 ++ [ConnAction.activateConn uuid devPath])
      else (some ActErr.externalFail, fix.2.2 ++ [ConnAction.activateConn uuid devPath])
    else
      if ¬ ssidFetchOk then (some ActErr.externalFail, [])
      else if activateOk then (none, [ConnAction.addAndActivate raw.ssid devPath])
      else (some ActErr.externalFail, [ConnAction.addAndActivate raw.ssid devPath])

/-- C4: with a non-empty uuid, a readable stored profile whose stored
key-management category differs from the AP's freshly computed category,
and that fresh category being Eap, activation returns the "need user
edit" condition and issues no action at all: no profile update and no
activation call precede the refusal. -/
theorem activateAccessPoint_eap_refuses (env : ProfileEnv)
    (apFetchOk ssidFetchOk activateOk : Bool) (uuid : String) (raw : RawAp)
    (devPath : String)
    (hap : apFetchOk = true)
    (huuid : uuid ≠ "")
    (hlookup : env.lookupOk = true)
    (hold : env.secTypeOldOk = true)
    (heap : doParseApSecType raw.flags raw.wpaFlags raw.rsnFlags = apSecEap)
    (hdiff : env.secTypeOld ≠ apSecEap) :
    activateAccessPoint env apFetchOk ssidFetchOk activateOk uuid raw devPath =
      (some ActErr.needUserEdit, []) := by
  have hfix : fixApSecTypeChange env uuid apSecEap = (true, false, []) := by
    unfold fixApSecTypeChange
    rw [if_neg (by simp [hlookup]), if_neg (by simp [hold]), if_neg (by simp [hdiff])]
  unfold activateAccessPoint
  rw [if_neg (by simp [hap])]
  simp only [heap, if_pos huuid, hfix]
  simp

/-- Witness for C4: stored Psk profile, AP reclassified to Eap (802.1X bit
in rsnFlags) — the call refuses with "need user edit" and no actions. -/
theorem activateAccessPoint_eap_refuses_witness :
    activateAccessPoint ⟨true, true, apSecPsk, true, true⟩ true true true "u1"
      ⟨"net", 1, 0, 0x290, 70, 5500⟩ "dev" = (some ActErr.needUserEdit, []) :=
  activateAccessPoint_eap_refuses ⟨true, true, apSecPsk, true, true⟩ true true true "u1"
    ⟨"net", 1, 0, 0x290, 70, 5500⟩ "dev" rfl (by decide) rfl rfl (by decide) (by decide)

/-! ## Band-steering candidate search -/

/-- The inner loop of `findAPByBand` for a non-empty band: first AP with
the requested SSID whose frequency lies in the requested band's range. -/
def findBandMatch (ssid : String) (accessPoints : List accessPoint) (band : String) :
    Option accessPoint :=
  accessPoints.find? (fun ap =>
    (ap.Ssid == ssid && band == "a" && decide (frequency5GLowerlimit ≤ ap.Frequency) &&
      decide (ap.Frequency ≤ frequency5GUpperlimit)) ||
    (ap.Ssid == ssid && band == "bg" && decide (frequency2GLowerlimit ≤ ap.Frequency) &&
      decide (ap.Frequency ≤ frequency2GUpperlimit)))

/-- One outer-loop iteration of `findAPByBand` (lines 441-462), threading
`(apNow, strengthMax)`: with an empty band a same-SSID AP of strictly
greater strength replaces the candidate; with a non-empty band the source
re-runs the inner first-match scan over the whole list (its `break` only
leaves the inner loop, so each outer iteration recomputes the same first
match). -/
def findAPByBandStep (ssid : String) (accessPoints : List accessPoint) (band : String)
    (acc : Option accessPoint × Nat) (ap : accessPoint) : Option accessPoint × Nat :=
  if band = "" then
    if ap.Ssid = ssid ∧ acc.2 < ap.Strength then (some ap, ap.Strength) else acc
  else
    match findBandMatch ssid accessPoints band with
    | some ap2 => (some ap2, acc.2)
    | none => acc

/-- Embedding of `findAPByBand` (lines 437-464). -/
def findAPByBand (ssid : String) (accessPoints : List accessPoint) (band : String) :
    Option accessPoint :=
  (accessPoints.foldl (findAPByBandStep ssid accessPoints band) (none, 0)).1

/-- Embedding of `getBandByFrequency` (lines 466-477). -/
def getBandByFrequency (freq : Nat) : String :=
  if frequency5GLowerlimit ≤ freq ∧ freq ≤ frequency5GUpperlimit then "a"
  else if frequency2GLowerlimit ≤ freq ∧ freq ≤ frequency2GUpperlimit then "bg"
  else "unknown"

/-- Recursive description of the automatic (empty-band) scan: the first
same-SSID AP whose strength strictly exceeds the running maximum `m`,
upgraded whenever a later AP strictly exceeds it again. -/
def bestExceeding (ssid : String) : Nat → List accessPoint → Option accessPoint
  | _, [] => none
  | m, ap :: t =>
    if ap.Ssid = ssid ∧ m < ap.Strength then
      match bestExceeding ssid ap.Strength t with
      | some b => some b
      | none => some ap
    else bestExceeding ssid m t

lemma foldl_auto_eq_bestExceeding (ssid : String) (aps : List accessPoint) :
    ∀ (l : List accessPoint) (cand : Option accessPoint) (m : Nat),
      l.foldl (findAPByBandStep ssid aps "") (cand, m) =
        match bestExceeding ssid m l with
        | some b => (some b, b.Strength)
        | none => (cand, m) := by
  intro l
  induction l with
  | nil =>
    intro cand m
    simp [bestExceeding]
  | cons ap t ih =>
    intro cand m
    rw [List.foldl_cons]
    by_cases h : ap.Ssid = ssid ∧ m < ap.Strength
    · have hstep : findAPByBandStep ssid aps "" (cand, m) ap = (some ap, ap.Strength) := by
        simp [findAPByBandStep, h]
      rw [hstep, ih]
      simp only [bestExceeding]
      rw [if_pos h]
      cases hbe : bestExceeding ssid ap.Strength t <;> simp [hbe]
    · have hstep : findAPByBandStep ssid aps "" (cand, m) ap = (cand, m) := by
        simp [findAPByBandStep, h]
      rw [hstep, ih]
      simp only [bestExceeding]
      rw [if_neg h]

lemma findAPByBand_auto (ssid : String) (aps : List accessPoint) :
    findAPByBand ssid aps "" = bestExceeding ssid 0 aps := by
  unfold findAPByBand
  rw [foldl_auto_eq_bestExceeding ssid aps aps none 0]
  cases hbe : bestExceeding ssid 0 aps <;> simp

lemma bestExceeding_none (ssid : String) :
    ∀ (l : List accessPoint) (m : Nat), bestExceeding ssid m l = none →
      ∀ c ∈ l, c.Ssid = ssid → c.Strength ≤ m := by
  intro l
  induction l with
  | nil =>
    intro m _ c hc
    exact absurd hc (List.not_mem_nil c)
  | cons ap t ih =>
    intro m h c hc hssid
    simp only [bestExceeding] at h
    by_cases hcond : ap.Ssid = ssid ∧ m < ap.Strength
    · rw [if_pos hcond] at h
      cases hbe : bestExceeding ssid ap.Strength t <;> rw [hbe] at h <;> simp at h
    · rw [if_neg hcond] at h
      rcases List.mem_cons.mp hc with hceq | hmem
      · subst hceq
        by_contra hlt
        exact hcond ⟨hssid, by omega⟩
      · exact ih m h c hmem hssid

lemma bestExceeding_some (ssid : String) :
    ∀ (l : List accessPoint) (m : Nat) (b : accessPoint),
      bestExceeding ssid m l = some b →
      b ∈ l ∧ b.Ssid = ssid ∧ m < b.Strength ∧
      (∀ c ∈ l, c.Ssid = ssid → c.Strength ≤ b.Strength) ∧
      ∃ p q, l = p ++ b :: q ∧ ∀ c ∈ p, c.Ssid = ssid → c.Strength < b.Strength := by
  intro l
  induction l with
  | nil =>
    intro m b h
    exact absurd h (by simp [bestExceeding])
  | cons ap t ih =>
    intro m b h
    simp only [bestExceeding] at h
    by_cases hcond : ap.Ssid = ssid ∧ m < ap.Strength
    · rw [if_pos hcond] at h
      cases hbe : bestExceeding ssid ap.Strength t with
      | some b2 =>
        rw [hbe] at h
        simp only [Option.some.injEq] at h
        subst h
        obtain ⟨hmem, hssid, hgt, hbound, p, q, hsplit, hfirst⟩ := ih ap.Strength b2 hbe
        refine ⟨List.mem_cons_of_mem ap hmem, hssid, by omega, ?_, ap :: p, q, ?_, ?_⟩
        · intro c hc hcs
          rcases List.mem_cons.mp hc with hceq | hmem2
          · subst hceq
            omega
          · exact hbound c hmem2 hcs
        · rw [hsplit]
          rfl
        · intro c hc hcs
          rcases List.mem_cons.mp hc with hceq | hmem2
          · subst hceq
            omega
          · exact hfirst c hmem2 hcs
      | none =>
        rw [hbe] at h
        simp only [Option.some.injEq] at h
        subst h
        have hle := bestExceeding_none ssid t ap.Strength hbe
        refine ⟨List.mem_cons_self ap t, hcond.1, hcond.2, ?_, [], t, rfl, ?_⟩
        · intro c hc hcs
          rcases List.mem_cons.mp hc with hceq | hmem2
          · subst hceq
            exact le_refl _
          · exact hle c hmem2 hcs
        · intro c hc
          exact absurd hc (List.not_mem_nil c)
    · rw [if_neg hcond] at h
      obtain ⟨hmem, hssid, hgt, hbound, p, q, hsplit, hfirst⟩ := ih m b h
      refine ⟨List.mem_cons_of_mem ap hmem, hssid, hgt, ?_, ap :: p, q, ?_, ?_⟩
      · intro c hc hcs
        rcases List.mem_cons.mp hc with hceq | hmem2
        · subst hceq
          have : ¬ m < c.Strength := fun hlt => hcond ⟨hcs, hlt⟩
          omega
        · exact hbound c hmem2 hcs
      · rw [hsplit]
        rfl
      · intro c hc hcs
        rcases List.mem_cons.mp hc with hceq | hmem2
        · subst hceq
          have : ¬ m < c.Strength := fun hlt => hcond ⟨hcs, hlt⟩
          omega
        · exact hfirst c hmem2 hcs

lemma foldl_band_eq (ssid : String) (aps : List accessPoint) (band : String)
    (hb : band ≠ "") :
    ∀ (l : List accessPoint) (acc : Option accessPoint × Nat),
      l.foldl (findAPByBandStep ssid aps band) acc =
        if l.isEmpty then acc
        else match findBandMatch ssid aps band with
          | some a => (some a, acc.2)
          | none => acc := by
  intro l
  induction l with
  | nil =>
    intro acc
    simp
  | cons x t ih =>
    intro acc
    rw [List.foldl_cons, ih]
    have hstep : findAPByBandStep ssid aps band acc x =
        (match findBandMatch ssid aps band with
         | some a => (some a, acc.2)
         | none => acc) := by
      simp only [findAPByBandStep, if_neg hb]
    rw [hstep]
    cases hm : findBandMatch ssid aps band with
    | some a => cases t <;> simp
    | none => cases t <;> simp

lemma findAPByBand_band_ne (ssid : String) (aps : List accessPoint) (band : String)
    (hb : band ≠ "") :
    findAPByBand ssid aps band = findBandMatch ssid aps band := by
  unfold findAPByBand
  rw [foldl_band_eq ssid aps band hb aps (none, 0)]
  cases aps with
  | nil => simp [findBandMatch]
  | cons x t =>
    cases hm : findBandMatch ssid (x :: t) band with
    | some a => simp [hm]
    | none => simp [hm]

lemma findBandMatch_a (ssid : String) (aps : List accessPoint) :
    findBandMatch ssid aps "a" =
      aps.find? (fun ap => ap.Ssid == ssid &&
        decide (frequency5GLowerlimit ≤ ap.Frequency) &&
        decide (ap.Frequency ≤ frequency5GUpperlimit)) := by
  unfold findBandMatch
  congr 1
  funext ap
  simp

lemma findBandMatch_bg (ssid : String) (aps : List accessPoint) :
    findBandMatch ssid aps "bg" =
      aps.find? (fun ap => ap.Ssid == ssid &&
        decide (frequency2GLowerlimit ≤ ap.Frequency) &&
        decide (ap.Frequency ≤ frequency2GUpperlimit)) := by
  unfold findBandMatch
  congr 1
  funext ap
  simp

/-- C6 (amended): `findAPByBand` searches the full AP list it is given —
`checkAPStrength` passes the device's complete registry slice, ignored
APs included. With an empty band it returns the first same-SSID AP of
strictly highest strength provided that strength is positive, and no
candidate when every same-SSID AP has strength 0; with band "a" (resp.
"bg") it returns the first same-SSID AP whose frequency lies in
[4915, 5825] (resp. [2412, 2484]) MHz, and no candidate when none
matches. -/
theorem findAPByBand_characterization (ssid : String) (aps : List accessPoint) :
    (∀ b, findAPByBand ssid aps "" = some b →
      b ∈ aps ∧ b.Ssid = ssid ∧ 0 < b.Strength ∧
      (∀ c ∈ aps, c.Ssid = ssid → c.Strength ≤ b.Strength) ∧
      ∃ p q, aps = p ++ b :: q ∧ ∀ c ∈ p, c.Ssid = ssid → c.Strength < b.Strength) ∧
    (findAPByBand ssid aps "" = none ↔ ∀ c ∈ aps, c.Ssid = ssid → c.Strength = 0) ∧
    findAPByBand ssid aps "a" = aps.find? (fun ap => ap.Ssid == ssid &&
      decide (frequency5GLowerlimit ≤ ap.Frequency) &&
      decide (ap.Frequency ≤ frequency5GUpperlimit)) ∧
    findAPByBand ssid aps "bg" = aps.find? (fun ap => ap.Ssid == ssid &&
      decide (frequency2GLowerlimit ≤ ap.Frequency) &&
      decide (ap.Frequency ≤ frequency2GUpperlimit)) := by
  refine ⟨?_, ⟨?_, ?_⟩, ?_, ?_⟩
  · intro b hb
    rw [findAPByBand_auto] at hb
    exact bestExceeding_some ssid aps 0 b hb
  · intro hnone c hc hcs
    rw [findAPByBand_auto] at hnone
    have := bestExceeding_none ssid aps 0 hnone c hc hcs
    omega
  · intro hall
    rw [findAPByBand_auto]
    cases hbe : bestExceeding ssid 0 aps with
    | none => rfl
    | some b =>
      obtain ⟨hmem, hssid, hgt, _, _⟩ := bestExceeding_some ssid aps 0 b hbe
      have := hall b hmem hssid
      omega
  · rw [findAPByBand_band_ne ssid aps "a" (by decide), findBandMatch_a]
  · rw [findAPByBand_band_ne ssid aps "bg" (by decide), findBandMatch_bg]

/-- Two same-SSID APs; the stronger one is ignored, yet the automatic
search still selects it (full-list search). -/
def apW1 : accessPoint := ⟨"dev", false, "x", false, false, 7, "p1", 2437⟩

def apW2 : accessPoint := ⟨"dev", true, "x", false, false, 9, "p2", 5180⟩

/-- Witness for C6 at a concrete input: among two same-SSID APs of
strengths 7 and 9 the automatic search returns the strength-9 one; all
characterization conclusions hold there. -/
theorem findAPByBand_characterization_witness :
    apW2 ∈ [apW1, apW2] ∧ apW2.Ssid = "x" ∧ 0 < apW2.Strength ∧
    (∀ c ∈ [apW1, apW2], c.Ssid = "x" → c.Strength ≤ apW2.Strength) ∧
    ∃ p q, [apW1, apW2] = p ++ apW2 :: q ∧
      ∀ c ∈ p, c.Ssid = "x" → c.Strength < apW2.Strength :=
  (findAPByBand_characterization "x" [apW1, apW2]).1 apW2 (by decide)

/-- An ignored 5 GHz AP used to refute the visible-list part of the
original C6 claim. -/
def apIgnoredBandCex : accessPoint := ⟨"dev", true, "x", false, false, 5, "b", 5000⟩

/-- A visible strength-0 AP used to refute the highest-strength part of
the original C6 claim. -/
def apZeroStrengthCex : accessPoint := ⟨"dev", false, "x", false, false, 0, "b", 2437⟩

/-- Counterexample for C6: (i) an AP with `shouldBeIgnored = true` is
returned by the band search — ignored APs are not excluded from
consideration; (ii) with an empty band and a unique same-SSID AP of
strength 0 (which is visible, not ignored) no candidate is returned,
though the claim promises the same-SSID AP with the strictly highest
strength. -/
theorem findAPByBand_cex :
    apIgnoredBandCex.shouldBeIgnored = true ∧
    findAPByBand "x" [apIgnoredBandCex] "a" = some apIgnoredBandCex ∧
    apZeroStrengthCex.shouldBeIgnored = false ∧
    apZeroStrengthCex.Ssid = "x" ∧
    findAPByBand "x" [apZeroStrengthCex] "" = none :=
  ⟨rfl, by decide, rfl, rfl, by decide⟩

/-- C10: in automatic mode (empty band) `findAPByBand` never returns an
AP of strength 0: a returned candidate strictly exceeds the initial
maximum 0, and when every same-SSID AP has strength 0 no candidate is
returned at all. -/
theorem findAPByBand_auto_never_strength_zero (ssid : String) (aps : List accessPoint) :
    (∀ b, findAPByBand ssid aps "" = some b → 0 < b.Strength) ∧
    ((∀ c ∈ aps, c.Ssid = ssid → c.Strength = 0) → findAPByBand ssid aps "" = none) := by
  constructor
  · intro b hb
    rw [findAPByBand_auto] at hb
    exact (bestExceeding_some ssid aps 0 b hb).2.2.1
  · intro hall
    rw [findAPByBand_auto]
    cases hbe : bestExceeding ssid 0 aps with
    | none => rfl
    | some b =>
      obtain ⟨hmem, hssid, hgt, _, _⟩ := bestExceeding_some ssid aps 0 b hbe
      have := hall b hmem hssid
      omega

/-- Witness for C10: a single same-SSID strength-0 AP yields no automatic
candidate. -/
theorem findAPByBand_auto_never_strength_zero_witness :
    findAPByBand "x" [⟨"dev", false, "x", false, false, 0, "p1", 2437⟩] "" = none :=
  (findAPByBand_auto_never_strength_zero "x"
    [⟨"dev", false, "x", false, false, 0, "p1", 2437⟩]).2 (by decide)

/-! ## Band-steering pass -/

/-- Per-device inputs of one `checkAPStrength` iteration: the device's
registry path, its live active-AP path/frequency/strength/SSID (strength
is a uint8, 0..255), whether the active-connection handle is readable
(`ActiveConnection().Get` plus `nmNewActiveConnection` plus
`State().Get`), the active-connection state, the device's registry AP
slice `m.accessPoints[dev.Path]`, whether `Connection().Get` and
`getConnection` succeed, whether `updateConnectionBand` succeeds, and
the profile uuid. -/
structure WifiDevInfo where
  path : String
  apPath : String
  frequency : Nat
  strength : Nat
  ssid : String
  connOk : Bool
  state : Nat
  aps : List accessPoint
  connLookupOk : Bool
  updateBandOk : Bool
  uuid : String
deriving DecidableEq, Repr

/-- Calls the steering pass issues: a profile band rewrite
(`updateConnectionBand`) and a re-activation (`activateAccessPoint`). -/
inductive SteerAction where
  | updateBand (devPath : String) (band : String)
  | reactivate (uuid : String) (apPath : String) (devPath : String)
deriving DecidableEq, Repr

/-- One device iteration of `checkAPStrength` (lines 485-564). The band
argument is the pass-local `band` variable; the iteration returns the
actions it issued and the (possibly mutated) band value handed to the
next iteration — the source assigns `band = "a"/"bg"` to the loop-scoped
variable at lines 538-541. The `strength + 20` comparison is Go uint8
arithmetic, hence the explicit wrap modulo 256. -/
def stepDevice (band : String) (d : WifiDevInfo) : List SteerAction × String :=
  if ¬ d.connOk then ([], band)
  else if d.state ≠ NM_ACTIVE_CONNECTION_STATE_ACTIVATED then ([], band)
  else if band = "" ∧ channelAutoChangeThreshold < d.strength ∧
      frequency5GLowerlimit ≤ d.frequency ∧ d.frequency ≤ frequency5GUpperlimit then
    ([], band)
  else
    match findAPByBand d.ssid d.aps band with
    | none => ([], band)
    | some apNow =>
      if apNow.Path = d.apPath then ([], band)
      else if band = "" ∧ apNow.Strength < (d.strength + 20) % 256 then ([], band)
      else
        let band2 := if band = "" then
            (if frequency5GLowerlimit ≤ apNow.Frequency ∧
                apNow.Frequency ≤ frequency5GUpperlimit then "a" else "bg")
          else band
        if band2 = getBandByFrequency d.frequency then ([], band2)
        else if ¬ d.connLookupOk then ([], band2)
        else if ¬ d.updateBandOk then ([SteerAction.updateBand d.path band2], band2)
        else ([SteerAction.updateBand d.path band2,
               SteerAction.reactivate d.uuid apNow.Path d.path], band2)

/-- Embedding of `checkAPStrength` (lines 479-566): read and clear the
pending manual band, then iterate over the wifi devices threading the
pass-local band variable, collecting the issued actions. -/
def checkAPStrength (pendingBand : String) (devices : List WifiDevInfo) :
    List SteerAction :=
  (devices.foldl (fun acc d =>
    let r := stepDevice acc.2 d
    (acc.1 ++ r.1, r.2)) (([] : List SteerAction), pendingBand)).1

/-- Device at strength 240 (2.4 GHz) with a same-SSID 5 GHz candidate at
strength 250: exact arithmetic gives a delta of 10 < 20, yet uint8
wrapping makes the comparison `250 < (240 + 20) mod 256 = 4` false. -/
def devCexC5 : WifiDevInfo :=
  ⟨"dev1", "a1", 2437, 240, "x", true, 2,
    [⟨"dev1", false, "x", false, false, 250, "b1", 5500⟩], true, true, "u1"⟩

/-- Counterexample for C5: the margin comparison is not exact integer
arithmetic over 0..255. At current strength 240 and candidate strength
250 the candidate-minus-current delta is 10 < 20, so the claim demands a
skip; the source's uint8 `strength + 20` wraps to 4 and re-activation
proceeds (a band update and a re-activation are issued). -/
theorem checkAPStrength_margin_wraps :
    devCexC5.strength = 240 ∧
    (findAPByBand devCexC5.ssid devCexC5.aps "").map accessPoint.Strength = some 250 ∧
    (250 : Nat) < devCexC5.strength + 20 ∧
    stepDevice "" devCexC5 =
      ([SteerAction.updateBand "dev1" "a", SteerAction.reactivate "u1" "b1" "dev1"], "a") :=
  ⟨rfl, by decide, by decide, by decide⟩

/-- C5 (amended): the automatic margin check compares
`candidate.Strength < (current.Strength + 20) mod 256` in wrapping uint8
arithmetic. Whenever the current strength is at most 235 — so the
addition cannot wrap — this coincides with exact integer arithmetic: a
same-SSID candidate whose strength does not exceed the current strength
by at least 20 causes the device to be skipped with no actions issued
and the pass-local band left empty. -/
theorem stepDevice_auto_strength_margin (d : WifiDevInfo) (b : accessPoint)
    (hs : d.strength ≤ 235)
    (hfind : findAPByBand d.ssid d.aps "" = some b)
    (hlt : b.Strength < d.strength + 20) :
    stepDevice "" d = ([], "") := by
  have hmod : (d.strength + 20) % 256 = d.strength + 20 := Nat.mod_eq_of_lt (by omega)
  unfold stepDevice
  rw [hfind, hmod]
  split
  · rfl
  · split
    · rfl
    · split
      · rfl
      · simp only []
        split
        · rfl
        · simp [hlt]

/-- Device at strength 40 with a same-SSID 5 GHz candidate at strength
55: delta 15 < 20, skipped. -/
def devW55 : WifiDevInfo :=
  ⟨"dev1", "a1", 2437, 40, "x", true, 2,
    [⟨"dev1", false, "x", false, false, 55, "b1", 5180⟩], true, true, "u1"⟩

/-- Same device with the candidate at strength 65: delta 25 ≥ 20,
steering proceeds. -/
def devW65 : WifiDevInfo :=
  ⟨"dev1", "a1", 2437, 40, "x", true, 2,
    [⟨"dev1", false, "x", false, false, 65, "b1", 5180⟩], true, true, "u1"⟩

/-- Witness for C5 (amended): current 40 / candidate 55 does not steer;
current 40 / candidate 65 does. -/
theorem stepDevice_auto_strength_margin_witness :
    stepDevice "" devW55 = ([], "") ∧
    stepDevice "" devW65 =
      ([SteerAction.updateBand "dev1" "a", SteerAction.reactivate "u1" "b1" "dev1"], "a") :=
  ⟨stepDevice_auto_strength_margin devW55
      ⟨"dev1", false, "x", false, false, 55, "b1", 5180⟩ (by decide) (by decide) (by decide),
    by decide⟩

/-- First device of the C7 counterexample pass: automatic examination
reaches the candidate-band assignment (candidate "b1" is 2.4 GHz, same
band as the current AP), so the device itself is skipped at the
band-equality check — but the pass-local band variable is left at
"bg". -/
def devC7first : WifiDevInfo :=
  ⟨"d1", "a1", 2437, 30, "x", true, 2,
    [⟨"d1", false, "x", false, false, 60, "b1", 2462⟩], true, true, "u1"⟩

/-- Second device of the C7 counterexample pass: activated, strength 70 >
65, frequency 5500 MHz within [4915, 5825] — the claim says it must be
skipped. -/
def devC7strong5G : WifiDevInfo :=
  ⟨"d2", "a2", 5500, 70, "y", true, 2,
    [⟨"d2", false, "y", false, false, 50, "b2", 2437⟩], true, true, "u2"⟩

/-- Counterexample for C7: in a pass that starts with no manual band, a
device in activated state with strength above 65 on a 5 GHz frequency is
NOT always skipped: the pass-local band variable mutated while examining
an earlier device (lines 538-541 assign to the loop-scoped `band`)
defeats the strong-5G skip, and the second device receives a profile
band update and a re-activation. -/
theorem checkAPStrength_strong5G_not_independent :
    devC7strong5G.state = NM_ACTIVE_CONNECTION_STATE_ACTIVATED ∧
    channelAutoChangeThreshold < devC7strong5G.strength ∧
    frequency5GLowerlimit ≤ devC7strong5G.frequency ∧
    devC7strong5G.frequency ≤ frequency5GUpperlimit ∧
    checkAPStrength "" [devC7strong5G] = [] ∧
    checkAPStrength "" [devC7first, devC7strong5G] =
      [SteerAction.updateBand "d2" "bg", SteerAction.reactivate "u2" "b2" "d2"] :=
  ⟨rfl, by decide, by decide, by decide, by decide, by decide⟩

/-- C7 (amended): on a pass begun with no manual band request, a device
whose active connection is activated, whose strength exceeds 65 and
whose frequency lies in [4915, 5825] MHz is skipped (no actions, band
left empty) provided the pass-local band variable is still empty when
the device is examined; in particular a pass in which every device
satisfies this condition issues no action at all. Independence from
earlier devices does not hold in general: an earlier device's automatic
examination can assign the pass-local band and defeat the skip. -/
theorem checkAPStrength_strong5G_skip_while_band_empty :
    (∀ d : WifiDevInfo, d.connOk = true →
      d.state = NM_ACTIVE_CONNECTION_STATE_ACTIVATED →
      channelAutoChangeThreshold < d.strength →
      frequency5GLowerlimit ≤ d.frequency → d.frequency ≤ frequency5GUpperlimit →
      stepDevice "" d = ([], "")) ∧
    (∀ devs : List WifiDevInfo,
      (∀ d ∈ devs, d.connOk = true ∧
        d.state = NM_ACTIVE_CONNECTION_STATE_ACTIVATED ∧
        channelAutoChangeThreshold < d.strength ∧
        frequency5GLowerlimit ≤ d.frequency ∧ d.frequency ≤ frequency5GUpperlimit) →
      checkAPStrength "" devs = []) := by
  have hskip : ∀ d : WifiDevInfo, d.connOk = true →
      d.state = NM_ACTIVE_CONNECTION_STATE_ACTIVATED →
      channelAutoChangeThreshold < d.strength →
      frequency5GLowerlimit ≤ d.frequency → d.frequency ≤ frequency5GUpperlimit →
      stepDevice "" d = ([], "") := by
    intro d hconn hstate hstr hlo hhi
    unfold stepDevice
    rw [if_neg (by simp [hconn]), if_neg (by simp [hstate]),
      if_pos ⟨rfl, hstr, hlo, hhi⟩]
  refine ⟨hskip, ?_⟩
  have hfold : ∀ (devs : List WifiDevInfo) (acc : List SteerAction),
      (∀ d ∈ devs, d.connOk = true ∧
        d.state = NM_ACTIVE_CONNECTION_STATE_ACTIVATED ∧
        channelAutoChangeThreshold < d.strength ∧
        frequency5GLowerlimit ≤ d.frequency ∧ d.frequency ≤ frequency5GUpperlimit) →
      devs.foldl (fun acc d => let r := stepDevice acc.2 d; (acc.1 ++ r.1, r.2))
        (acc, "") = (acc, "") := by
    intro devs
    induction devs with
    | nil =>
      intro acc _
      rfl
    | cons d t ih =>
      intro acc hall
      rw [List.foldl_cons]
      obtain ⟨h1, h2, h3, h4, h5⟩ := hall d (List.mem_cons_self d t)
      have hd := hskip d h1 h2 h3 h4 h5
      simp only [hd]
      rw [List.append_nil]
      exact ih acc (fun d' hd' => hall d' (List.mem_cons_of_mem d hd'))
  intro devs hall
  unfold checkAPStrength
  rw [hfold devs [] hall]

/-- A strong 5 GHz device: activated, strength 80, frequency 5180 MHz. -/
def devW5G : WifiDevInfo :=
  ⟨"d3", "a3", 5180, 80, "z", true, 2,
    [⟨"d3", false, "z", false, false, 90, "b3", 2437⟩], true, true, "u3"⟩

/-- Witness for C7 (amended): the strong 5 GHz device is skipped while
the band is empty, and a pass consisting only of such devices issues no
action. -/
theorem checkAPStrength_strong5G_skip_while_band_empty_witness :
    stepDevice "" devW5G = ([], "") ∧
    checkAPStrength "" [devW5G, devW5G] = [] :=
  ⟨checkAPStrength_strong5G_skip_while_band_empty.1 devW5G rfl rfl
      (by decide) (by decide) (by decide),
    checkAPStrength_strong5G_skip_while_band_empty.2 [devW5G, devW5G] (by decide)⟩
